import Mathlib

/-!
Verification development for the Document-Automation repository.

The definitions below are a shallow embedding of the Python sources
`form_filler.py` and `document_processor.py`.  Python dictionaries are
modelled as association lists (first binding wins), Python `None` as
`Option.none`, raised exceptions as `Except.error` carrying the exception
message, and the Selenium page as a partial map from DOM id to an element
description.  Digits are modelled as ASCII digits.
-/

/-- An extracted document: a flat string-keyed mapping, as produced by the
extraction step.  Models a Python `dict` (first binding wins on lookup). -/
abbrev Doc := List (String × String)

/-- Model of Python `d.get(k)`: the value under the first matching key,
`none` when the key is absent. -/
def pyGet (d : Doc) (k : String) : Option String :=
  (List.find? (fun kv => kv.1 == k) d).map (fun kv => kv.2)

/-- Model of Python `k in d`. -/
def hasKey (d : Doc) (k : String) : Bool :=
  List.any d (fun kv => kv.1 == k)

/-- Model of Python `x or y` where `x` is an optional string and `y` a
string: `y` is chosen when `x` is `None` or empty (falsy). -/
def pyOr (x : Option String) (y : String) : String :=
  match x with
  | some s => if s = "" then y else s
  | none => y

/-- Model of Python `x or y` where both sides are optional strings
(`g28_data.get("attorney_phone") or g28_data.get("daytime_phone")`). -/
def pyOrOpt (x y : Option String) : Option String :=
  match x with
  | some s => if s = "" then y else some s
  | none => y

/-- ASCII lowercasing of one character; models Python `str.lower` on the
character range relevant here. -/
def charLower (c : Char) : Char :=
  if 'A' ≤ c && c ≤ 'Z' then Char.ofNat (c.toNat + 32) else c

/-- ASCII uppercasing of one character; models Python `str.upper`. -/
def charUpper (c : Char) : Char :=
  if 'a' ≤ c && c ≤ 'z' then Char.ofNat (c.toNat - 32) else c

/-- Model of Python `s.lower()`. -/
def pyLower (s : String) : String :=
  (s.toList.map charLower).asString

/-- Model of Python `s.upper()`. -/
def pyUpper (s : String) : String :=
  (s.toList.map charUpper).asString

/-- Python's whitespace characters for `strip` and `split`. -/
def isPyWs (c : Char) : Bool :=
  c = ' ' || c = '\t' || c = '\n' || c = '\r' || c = '\x0b' || c = '\x0c'

/-- Model of Python `s.strip()`: drop whitespace from both ends. -/
def pyStrip (s : String) : String :=
  ((s.toList.dropWhile isPyWs).reverse.dropWhile isPyWs).reverse.asString

/-- Tail of `pySplit`: `cur` is the current token reversed, `acc` the
finished tokens reversed. -/
def splitWsAux (cur : List Char) (acc : List String) : List Char → List String
  | [] => if cur.isEmpty then acc else cur.reverse.asString :: acc
  | c :: t =>
    if isPyWs c then
      if cur.isEmpty then splitWsAux [] acc t
      else splitWsAux [] (cur.reverse.asString :: acc) t
    else splitWsAux (c :: cur) acc t

/-- Model of Python `s.split()`: split on whitespace runs, dropping the
empty fragments, so the result never contains the empty string. -/
def pySplit (s : String) : List String :=
  (splitWsAux [] [] s.toList).reverse

/-- Model of Python's substring test `needle in hay` on a character list:
true when `needle` occurs contiguously inside `hay` (the empty needle is
found in every string, as in Python). -/
def listPrefixEq : List Char → List Char → Bool
  | [], _ => true
  | _ :: _, [] => false
  | a :: as, b :: bs => a == b && listPrefixEq as bs

/-- See `listPrefixEq`; scans every suffix of `hay` for `needle`. -/
def containsSub (needle hay : List Char) : Bool :=
  match hay with
  | [] => needle.isEmpty
  | _ :: t => listPrefixEq needle hay || containsSub needle t

/-- Index of the first element satisfying `p`, in iteration order; models
both Python's first-match loops and Selenium's first-match selection. -/
def firstIdx? (p : α → Bool) : List α → Option Nat
  | [] => none
  | a :: l => if p a then some 0 else (firstIdx? p l).map (fun i => i + 1)

/-- Zero-pad a number to two digits (`strftime` `%m` / `%d`). -/
def pad2 (n : Nat) : String :=
  if n < 10 then "0" ++ toString n else toString n

/-- Zero-pad a number to four digits (`strftime` `%Y`). -/
def pad4 (n : Nat) : String :=
  if n < 10 then "000" ++ toString n
  else if n < 100 then "00" ++ toString n
  else if n < 1000 then "0" ++ toString n
  else toString n

/-- Split a character list at every `'-'`, keeping empty chunks, exactly as
the `%Y-%m-%d` pattern of `datetime.strptime` segments its input at the
literal dashes. -/
def splitDash (cs : List Char) : List (List Char) :=
  match cs with
  | [] => [[]]
  | c :: t =>
    let r := splitDash t
    if c = '-' then [] :: r
    else
      match r with
      | h :: t2 => (c :: h) :: t2
      | [] => [[c]]

/-- Numeric value of the `%Y` field: exactly four ASCII digits. -/
def yearForm? : List Char → Option Nat
  | [a, b, c, d] =>
    if a.isDigit && b.isDigit && c.isDigit && d.isDigit then
      some (1000 * (a.toNat - 48) + 100 * (b.toNat - 48) + 10 * (c.toNat - 48) + (d.toNat - 48))
    else none
  | _ => none

/-- Numeric value of the `%m` field of `strptime`, whose regular expression
accepts `10`..`12`, `01`..`09`, or a single digit `1`..`9`. -/
def monthForm? : List Char → Option Nat
  | [c] => if '1' ≤ c && c ≤ '9' then some (c.toNat - 48) else none
  | [c1, c2] =>
    if c1 = '1' && '0' ≤ c2 && c2 ≤ '2' then some (10 + (c2.toNat - 48))
    else if c1 = '0' && '1' ≤ c2 && c2 ≤ '9' then some (c2.toNat - 48)
    else none
  | _ => none

/-- Numeric value of the `%d` field of `strptime`, whose regular expression
accepts `30`..`31`, `10`..`29`, `01`..`09`, or a single digit `1`..`9`. -/
def dayForm? : List Char → Option Nat
  | [c] => if '1' ≤ c && c ≤ '9' then some (c.toNat - 48) else none
  | [c1, c2] =>
    if c1 = '3' && (c2 = '0' || c2 = '1') then some (30 + (c2.toNat - 48))
    else if (c1 = '1' || c1 = '2') && c2.isDigit then
      some (10 * (c1.toNat - 48) + (c2.toNat - 48))
    else if c1 = '0' && '1' ≤ c2 && c2 ≤ '9' then some (c2.toNat - 48)
    else none
  | _ => none

/-- Proleptic-Gregorian leap-year rule used by `datetime`. -/
def isLeap (y : Nat) : Bool :=
  (y % 4 == 0 && y % 100 != 0) || y % 400 == 0

/-- Number of days of month `m` of year `y`, as validated by `datetime`. -/
def daysInMonth (y m : Nat) : Nat :=
  if m = 2 then (if isLeap y then 29 else 28)
  else if m = 4 || m = 6 || m = 9 || m = 11 then 30
  else 31

/-- Model of `datetime.strptime(s, "%Y-%m-%d")`: the string must consist of
exactly a `%Y` chunk, a dash, a `%m` chunk, a dash and a `%d` chunk (any
trailing text makes `strptime` raise), and the triple must be a real
calendar date with year at least 1, else `ValueError` is raised (`none`). -/
def parseYMD (s : String) : Option (Nat × Nat × Nat) :=
  match splitDash s.toList with
  | [ys, ms, ds] =>
    match yearForm? ys, monthForm? ms, dayForm? ds with
    | some y, some m, some d =>
      if 1 ≤ y && d ≤ daysInMonth y m then some (y, m, d) else none
    | _, _, _ => none
  | _ => none

/-- Embedding of `format_date` (form_filler.py, lines 69-77): `None`, the
empty string and "N/A" yield nothing; a string accepted by
`strptime("%Y-%m-%d")` is rendered as `MM/DD/YYYY`; any string the parse
rejects is passed through unchanged (the `except` branch). -/
def format_date (v : Option String) : Option String :=
  match v with
  | none => none
  | some s =>
    if s = "" || s = "N/A" then none
    else
      match parseYMD s with
      | some (y, m, d) => some (pad2 m ++ "/" ++ pad2 d ++ "/" ++ pad4 y)
      | none => some s

/-- Embedding of `format_gender` (form_filler.py, lines 80-88). -/
def format_gender (v : Option String) : Option String :=
  match v with
  | none => none
  | some s =>
    if s = "" || s = "N/A" then none
    else
      let gl := pyLower s
      if containsSub "female".toList gl.toList || gl = "f" then some "F"
      else if containsSub "male".toList gl.toList || gl = "m" then some "M"
      else some s

/-- The static 51-entry abbreviation table of `format_state`
(form_filler.py, lines 94-108), in source order. -/
def stateAbbrevMap : List (String × String) :=
  [("AL", "Alabama"), ("AK", "Alaska"), ("AZ", "Arizona"), ("AR", "Arkansas"),
   ("CA", "California"), ("CO", "Colorado"), ("CT", "Connecticut"), ("DE", "Delaware"),
   ("DC", "District of Columbia"), ("FL", "Florida"), ("GA", "Georgia"), ("HI", "Hawaii"),
   ("ID", "Idaho"), ("IL", "Illinois"), ("IN", "Indiana"), ("IA", "Iowa"),
   ("KS", "Kansas"), ("KY", "Kentucky"), ("LA", "Louisiana"), ("ME", "Maine"),
   ("MD", "Maryland"), ("MA", "Massachusetts"), ("MI", "Michigan"), ("MN", "Minnesota"),
   ("MS", "Mississippi"), ("MO", "Missouri"), ("MT", "Montana"), ("NE", "Nebraska"),
   ("NV", "Nevada"), ("NH", "New Hampshire"), ("NJ", "New Jersey"), ("NM", "New Mexico"),
   ("NY", "New York"), ("NC", "North Carolina"), ("ND", "North Dakota"), ("OH", "Ohio"),
   ("OK", "Oklahoma"), ("OR", "Oregon"), ("PA", "Pennsylvania"), ("RI", "Rhode Island"),
   ("SC", "South Carolina"), ("SD", "South Dakota"), ("TN", "Tennessee"), ("TX", "Texas"),
   ("UT", "Utah"), ("VT", "Vermont"), ("VA", "Virginia"), ("WA", "Washington"),
   ("WV", "West Virginia"), ("WI", "Wisconsin"), ("WY", "Wyoming")]

/-- Embedding of `format_state` (form_filler.py, lines 91-110): the lookup
key is the input uppercased then stripped; `dict.get(key, state_str)`
returns the original input when the key is not in the table. -/
def format_state (v : Option String) : Option String :=
  match v with
  | none => none
  | some s =>
    if s = "" || s = "N/A" then none
    else
      match pyGet stateAbbrevMap (pyStrip (pyUpper s)) with
      | some full => some full
      | none => some s

/-- One `<option>` of a select widget: its visible text and its value
attribute, as consulted by Selenium's `Select` helper. -/
structure SelectOption where
  text : String
  value : String
deriving DecidableEq

/-- A resolved DOM element as `fill_field_by_id` observes it: whether it is
displayed, its lowercased tag name, its `type` attribute (empty when
absent) and, for a select, its option list in document order. -/
structure Element where
  displayed : Bool
  tag_name : String
  input_type : String
  options : List SelectOption
deriving DecidableEq

/-- Result of one `fill_field_by_id` call: the returned boolean, the
updated `filled_fields` list, and the index of the option a select widget
ends up selecting (`none` for non-selects or when no option was chosen). -/
structure FillResult where
  ok : Bool
  filled : List String
  selected : Option Nat
deriving DecidableEq

/-- The case-insensitive substring test of the partial-match loop
(form_filler.py, line 132): value inside option text, or option text
inside value, both lowercased. -/
def substrMatch (v : String) (o : SelectOption) : Bool :=
  containsSub (pyLower v).toList (pyLower o.text).toList ||
  containsSub (pyLower o.text).toList (pyLower v).toList

/-- Which option a select widget ends up selecting for candidate `v`
(form_filler.py, lines 122-134): `select_by_visible_text` (first option
with that exact text, raising when there is none), then
`select_by_value`, then the partial-match loop choosing the first option
satisfying `substrMatch`; `none` when all three strategies fail. -/
def selectAction (v : String) (opts : List SelectOption) : Option Nat :=
  match firstIdx? (fun o => o.text == v) opts with
  | some i => some i
  | none =>
    match firstIdx? (fun o => o.value == v) opts with
    | some i => some i
    | none => firstIdx? (substrMatch v) opts

/-- Embedding of `fill_field_by_id` (form_filler.py, lines 113-150).  The
page is a partial map from DOM id to element; `none` models
`find_element` raising (caught by the inner `except`, hence `False`).  An
element interaction that would raise is modelled by the element being
absent or not displayed.  Note that after the dispatch on the widget kind
the source appends to `filled_fields` and returns `True` unconditionally,
even when a select matched no option. -/
def fill_field_by_id (page : String → Option Element) (field_id : String)
    (value : Option String) (field_name : String) (filled : List String) : FillResult :=
  match value with
  | none => ⟨false, filled, none⟩
  | some v =>
    if v = "N/A" || v = "" then ⟨false, filled, none⟩
    else
      match page field_id with
      | none => ⟨false, filled, none⟩
      | some el =>
        if el.displayed then
          let sel := if el.tag_name = "select" then selectAction v el.options else none
          let display := if field_name = "" then field_id else field_name
          ⟨true, filled ++ [display], sel⟩
        else ⟨false, filled, none⟩

/-- The `filled_fields` list after one `fill_field_by_id` call. -/
def fillStep (page : String → Option Element) (field_id : String)
    (value : Option String) (field_name : String) (filled : List String) : List String :=
  (fill_field_by_id page field_id value field_name filled).filled

/-- Embedding of the fallback half of the `attorney_last` expression
(form_filler.py, line 157):
`g28_data.get("attorney_name", "").split()[-1] if g28_data.get("attorney_name") else ""`.
Indexing `[-1]` on the empty token list raises `IndexError`
("list index out of range"). -/
def attorneyLastFallback (g : Doc) : Except String String :=
  match pyGet g "attorney_name" with
  | some w =>
    if w = "" then Except.ok ""
    else
      match (pySplit w).getLast? with
      | some t => Except.ok t
      | none => Except.error "list index out of range"
  | none => Except.ok ""

/-- Embedding of line 157: `g28_data.get("attorney_last_name") or <fallback>`;
the fallback is taken when the structured key is absent or empty (falsy),
but NOT when it is "N/A". -/
def attorney_last (g : Doc) : Except String String :=
  match pyGet g "attorney_last_name" with
  | some s => if s = "" then attorneyLastFallback g else Except.ok s
  | none => attorneyLastFallback g

/-- Embedding of the fallback half of the `attorney_first` expression
(form_filler.py, line 161), taking `split()[0]`. -/
def attorneyFirstFallback (g : Doc) : Except String String :=
  match pyGet g "attorney_name" with
  | some w =>
    if w = "" then Except.ok ""
    else
      match (pySplit w).head? with
      | some t => Except.ok t
      | none => Except.error "list index out of range"
  | none => Except.ok ""

/-- Embedding of line 161: `g28_data.get("attorney_first_name") or <fallback>`. -/
def attorney_first (g : Doc) : Except String String :=
  match pyGet g "attorney_first_name" with
  | some s => if s = "" then attorneyFirstFallback g else Except.ok s
  | none => attorneyFirstFallback g

/-- The external world of one `fill_form` run: whether driver
initialization fails (with the message of the final exception), whether
`driver.get` raises, the page reached after navigation, and whether the
screenshot step raises. -/
structure Env where
  launch : Option String
  nav : Option String
  page : String → Option Element
  shot : Option String

/-- The dict returned by `fill_form` (form_filler.py, lines 216-221 and
226-231). -/
structure RunResult where
  filled_fields : List String
  errors : List String
  screenshot : Option String
  total_filled : Nat
deriving DecidableEq

/-- Part 1, attorney family name (form_filler.py, lines 156-158): the fill
is attempted only when one of the two keys is present; computing the
value can raise `IndexError`. -/
def fillFamilyName (env : Env) (g : Doc) (f : List String) :
    Except (String × List String) (List String) :=
  if hasKey g "attorney_last_name" || hasKey g "attorney_name" then
    match attorney_last g with
    | Except.error m => Except.error (m, f)
    | Except.ok v =>
      Except.ok (fillStep env.page "family-name" (some v) "attorney_family_name" f)
  else Except.ok f

/-- Part 1, attorney given name (form_filler.py, lines 160-162). -/
def fillGivenName (env : Env) (g : Doc) (f : List String) :
    Except (String × List String) (List String) :=
  if hasKey g "attorney_first_name" || hasKey g "attorney_name" then
    match attorney_first g with
    | Except.error m => Except.error (m, f)
    | Except.ok v =>
      Except.ok (fillStep env.page "given-name" (some v) "attorney_given_name" f)
  else Except.ok f

/-- The remaining fills of Parts 1-3 (form_filler.py, lines 165-204), in
source order; none of these steps can raise. -/
def restOfFills (env : Env) (passport g28 : Doc) (f : List String) : List String :=
  let f := fillStep env.page "street-number" (pyGet g28 "attorney_address") "attorney_address" f
  let f := fillStep env.page "city" (pyGet g28 "attorney_city") "attorney_city" f
  let f := fillStep env.page "state" (format_state (pyGet g28 "attorney_state")) "attorney_state" f
  let f := fillStep env.page "zip" (pyGet g28 "attorney_zip") "attorney_zip" f
  let f := fillStep env.page "daytime-phone"
    (pyOrOpt (pyGet g28 "attorney_phone") (pyGet g28 "daytime_phone")) "attorney_phone" f
  let f := fillStep env.page "email" (pyGet g28 "attorney_email") "attorney_email" f
  let f := fillStep env.page "bar-number" (pyGet g28 "bar_number") "bar_number" f
  let f := fillStep env.page "law-firm" (pyGet g28 "firm_name") "firm_name" f
  let f := fillStep env.page "passport-surname" (pyGet passport "last_name") "passport_last_name" f
  let f := fillStep env.page "passport-given-names" (pyGet passport "first_name") "passport_first_name" f
  let f := fillStep env.page "passport-number" (pyGet passport "passport_number") "passport_number" f
  let f := fillStep env.page "passport-country" (pyGet passport "issuing_country") "passport_country" f
  let f := fillStep env.page "passport-nationality" (pyGet passport "nationality") "passport_nationality" f
  let f := fillStep env.page "passport-dob" (format_date (pyGet passport "date_of_birth")) "passport_dob" f
  let f := fillStep env.page "passport-pob" (pyGet passport "place_of_birth") "passport_place_of_birth" f
  let f := fillStep env.page "passport-sex" (format_gender (pyGet passport "gender")) "passport_sex" f
  let f := fillStep env.page "passport-issue-date" (format_date (pyGet passport "date_of_issue")) "passport_issue_date" f
  let f := fillStep env.page "passport-expiry-date" (format_date (pyGet passport "date_of_expiry")) "passport_expiry_date" f
  f

/-- The body of the outer `try` of `fill_form` (form_filler.py, lines
57-213): navigation, the fills, then the screenshot step.  An error
carries the exception message together with the `filled_fields`
accumulated up to the raise, as observed by the `except` handler. -/
def runBody (env : Env) (passport g28 : Doc) :
    Except (String × List String) (List String) :=
  match env.nav with
  | some m => Except.error (m, [])
  | none =>
    match fillFamilyName env g28 [] with
    | Except.error e => Except.error e
    | Except.ok f1 =>
      match fillGivenName env g28 f1 with
      | Except.error e => Except.error e
      | Except.ok f2 =>
        let f3 := restOfFills env passport g28 f2
        match env.shot with
        | some m => Except.error (m, f3)
        | none => Except.ok f3

/-- Embedding of `fill_form` (form_filler.py, lines 19-238).  A driver
initialization failure (lines 43-55) raises before the `try` that builds
the error dict, so it propagates to the caller (`Except.error`). Every
exception inside the body is caught at line 223 and converted into a
returned dict whose `errors` holds the single message. -/
def fill_form (env : Env) (passport g28 : Doc) : Except String RunResult :=
  match env.launch with
  | some e2 =>
    Except.error ("Failed to initialize ChromeDriver: " ++ e2 ++
      ". Please ensure Chrome browser is installed and ChromeDriver is available.")
  | none =>
    match runBody env passport g28 with
    | Except.ok f => Except.ok ⟨f, [], some "form_filled.png", f.length⟩
    | Except.error (m, pf) => Except.ok ⟨pf, [m], none, pf.length⟩

/-- The scroll offsets at which tiles are captured (form_filler.py, lines
373-393): start at 0; after capturing at `pos`, stop if `pos + vh` reaches
the content height, else continue at `pos + vh - 20`.  The fuel argument
only bounds the recursion; `total` units are enough whenever `vh > 20`,
and for `vh ≤ 20` the source loop never terminates. -/
def tileOffsetsAux (vh total : Nat) : Nat → Nat → List Nat
  | 0, pos => [pos]
  | fuel + 1, pos =>
    if total ≤ pos + vh then [pos]
    else pos :: tileOffsetsAux vh total fuel (pos + vh - 20)

/-- See `tileOffsetsAux`; the loop starts at scroll offset 0. -/
def tileOffsets (vh total : Nat) : List Nat :=
  tileOffsetsAux vh total total 0

/-- The compositing loop (form_filler.py, lines 406-429) as the list of
pasted regions `(paste_y, height)`: each tile of height `vh` captured at
`off` is pasted at `max off last_end`, its top cropped by the amount
skipped and its bottom cropped at the total content height. -/
def compositeAux (total vh : Nat) : Nat → List Nat → List (Nat × Nat)
  | _, [] => []
  | lastEnd, off :: rest =>
    let pasteY := max off lastEnd
    let h := min (vh - (pasteY - off)) (total - pasteY)
    (pasteY, h) :: compositeAux total vh (pasteY + h) rest

/-- The pasted regions of a full tiling run at content height `total` and
viewport height `vh`. -/
def composite (total vh : Nat) : List (Nat × Nat) :=
  compositeAux total vh 0 (tileOffsets vh total)

/-- How many of the pasted regions cover canvas row `r`. -/
def countCovered (regions : List (Nat × Nat)) (r : Nat) : Nat :=
  (regions.filter (fun reg => decide (reg.1 ≤ r) && decide (r < reg.1 + reg.2))).length

/-- `chainFrom a regions b`: the regions are consecutive nonempty
intervals starting exactly at `a` and ending exactly at `b`. -/
def chainFrom : Nat → List (Nat × Nat) → Nat → Prop
  | a, [], b => a = b
  | a, (s, h) :: rest, b => s = a ∧ 0 < h ∧ chainFrom (a + h) rest b

/-- Outcome of `_take_full_page_screenshot` after the viewport has
settled: either the single-screenshot branch (line 369) or the tiling
branch with its capture offsets (lines 371-393). -/
inductive CaptureOutcome where
  | single : CaptureOutcome
  | tiled : List Nat → CaptureOutcome
deriving DecidableEq

/-- The branch decision of `_take_full_page_screenshot` (form_filler.py,
line 368): `total_height <= viewport_height` takes one screenshot,
otherwise the scroll-and-stitch loop runs.  `total` is the measured
content height and `vh` the settled viewport height. -/
def screenshotPlan (total vh : Nat) : CaptureOutcome :=
  if total ≤ vh then CaptureOutcome.single
  else CaptureOutcome.tiled (tileOffsets vh total)

/-- Number of screenshots captured under a `CaptureOutcome`. -/
def numCaptures : CaptureOutcome → Nat
  | CaptureOutcome.single => 1
  | CaptureOutcome.tiled offs => offs.length

/-- The fence-stripping prelude of `_parse_json_response`
(document_processor.py, lines 36-43): strip, drop a leading three-backtick
json marker (7 characters), then a leading plain three-backtick marker,
then a trailing one, then strip again. -/
def fenceStrip (t : String) : String :=
  let t := pyStrip t
  let t := if listPrefixEq "```json".toList t.toList then (t.toList.drop 7).asString else t
  let t := if listPrefixEq "```".toList t.toList then (t.toList.drop 3).asString else t
  let t := if listPrefixEq "```".toList.reverse t.toList.reverse then
    (t.toList.take (t.toList.length - 3)).asString else t
  pyStrip t

/-- Model of Python `s.find(c)` restricted to single-character needles:
the index of the first occurrence, `none` for -1. -/
def pyFind (t : String) (c : Char) : Option Nat :=
  firstIdx? (fun a => a == c) t.toList

/-- Model of Python `s.rfind(c)`: the index of the last occurrence. -/
def pyRFind (t : String) (c : Char) : Option Nat :=
  match firstIdx? (fun a => a == c) t.toList.reverse with
  | some i => some (t.toList.length - 1 - i)
  | none => none

/-- Model of Python `s[i:j]` for `0 ≤ i ≤ j`. -/
def pySlice (t : String) (i j : Nat) : String :=
  ((t.toList.drop i).take (j - i)).asString

/-- Model of Python `s[:500]`. -/
def pyTake (t : String) (n : Nat) : String :=
  (t.toList.take n).asString

/-- Result of `_parse_json_response`: the parsed object, or the error dict
`{"error": "Failed to parse response", "raw_response": raw}` carried as
its `raw_response` string. -/
inductive ParseOut (α : Type) where
  | parsed : α → ParseOut α
  | failed : String → ParseOut α
deriving DecidableEq

/-- Embedding of `_parse_json_response` (document_processor.py, lines
34-55).  `json.loads` is an external collaborator, modelled as an
arbitrary total function `loads` returning `none` on `JSONDecodeError`.
After fence stripping, a failed parse retries on the slice from the first
brace through the last one, and a second failure yields the error dict
with the first 500 characters of the stripped text. -/
def parse_json_response {α : Type} (loads : String → Option α) (text : String) : ParseOut α :=
  let t := fenceStrip text
  match loads t with
  | some j => ParseOut.parsed j
  | none =>
    match pyFind t '{', pyRFind t '}' with
    | some i, some j =>
      if i ≤ j then
        match loads (pySlice t i (j + 1)) with
        | some v => ParseOut.parsed v
        | none => ParseOut.failed (pyTake t 500)
      else ParseOut.failed (pyTake t 500)
    | _, _ => ParseOut.failed (pyTake t 500)

/-- Digit-string value, most significant first. -/
def digitsVal (cs : List Char) : Nat :=
  cs.foldl (fun acc c => 10 * acc + (c.toNat - 48)) 0

/-- The strict `YYYY-MM-DD` shape named by the claim: exactly two dashes
splitting the string into a four-digit year, a two-digit month and a
two-digit day that form a real calendar date.  Stated from the claim's
words; compared against the source-derived `parseYMD`. -/
def strictYMD? (s : String) : Option (Nat × Nat × Nat) :=
  match splitDash s.toList with
  | [ys, ms, ds] =>
    if ys.length = 4 && ys.all Char.isDigit && ms.length = 2 && ms.all Char.isDigit
        && ds.length = 2 && ds.all Char.isDigit then
      if 1 ≤ digitsVal ys && 1 ≤ digitsVal ms && digitsVal ms ≤ 12 && 1 ≤ digitsVal ds
          && digitsVal ds ≤ daysInMonth (digitsVal ys) (digitsVal ms) then
        some (digitsVal ys, digitsVal ms, digitsVal ds)
      else none
    else none
  | _ => none

/-- Modelled from the spec: the attorney surname the spec says gets
filled — the structured `attorney_last_name` key when present and not
"N/A", otherwise the last whitespace token of the combined
`attorney_name` value.  Stated from the claim's words; compared against
the source-derived `attorney_last`. -/
def attorneyLastSpec (g : Doc) : Option String :=
  match pyGet g "attorney_last_name" with
  | some s => if s ≠ "N/A" then some s else (pyGet g "attorney_name").bind (fun w => (pySplit w).getLast?)
  | none => (pyGet g "attorney_name").bind (fun w => (pySplit w).getLast?)

/-- Modelled from the spec: the given-name counterpart of
`attorneyLastSpec`, taking the first whitespace token. -/
def attorneyFirstSpec (g : Doc) : Option String :=
  match pyGet g "attorney_first_name" with
  | some s => if s ≠ "N/A" then some s else (pyGet g "attorney_name").bind (fun w => (pySplit w).head?)
  | none => (pyGet g "attorney_name").bind (fun w => (pySplit w).head?)

theorem firstIdx?_eq_none_of {α : Type} (p : α → Bool) (l : List α)
    (h : ∀ a ∈ l, p a = false) : firstIdx? p l = none := by
  induction l with
  | nil => rfl
  | cons x t ih =>
    have hx : p x = false := h x (List.mem_cons_self x t)
    simp only [firstIdx?, hx]
    simp [ih fun a ha => h a (List.mem_cons_of_mem x ha)]

theorem firstIdx?_isSome_of_mem {α : Type} (p : α → Bool) (l : List α) (a : α)
    (ha : a ∈ l) (hp : p a = true) : ∃ i, firstIdx? p l = some i := by
  induction l with
  | nil => cases ha
  | cons x t ih =>
    by_cases hx : p x
    · exact ⟨0, by simp [firstIdx?, hx]⟩
    · rcases List.mem_cons.mp ha with rfl | hat
      · exact absurd hp (by simpa using hx)
      · obtain ⟨i, hi⟩ := ih hat
        exact ⟨i + 1, by simp [firstIdx?, hx, hi]⟩

theorem firstIdx?_some_spec {α : Type} (p : α → Bool) (d : α) :
    ∀ (l : List α) (i : Nat), firstIdx? p l = some i →
      i < l.length ∧ p (l.getD i d) = true ∧ ∀ j, j < i → p (l.getD j d) = false := by
  intro l
  induction l with
  | nil => intro i h; simp [firstIdx?] at h
  | cons x t ih =>
    intro i h
    by_cases hx : p x
    · simp only [firstIdx?, hx, if_pos] at h
      cases h
      exact ⟨by simp, by simpa using hx, fun j hj => absurd hj (Nat.not_lt_zero j)⟩
    · simp only [firstIdx?, hx, if_neg, Bool.false_eq_true, not_false_iff,
        Option.map_eq_some'] at h
      obtain ⟨i', hi', rfl⟩ := h
      obtain ⟨h1, h2, h3⟩ := ih i' hi'
      refine ⟨by simpa using Nat.succ_lt_succ h1, by simpa using h2, ?_⟩
      intro j hj
      match j with
      | 0 => simpa using hx
      | j' + 1 => simpa using h3 j' (by omega)

/-- C1 counterexample: when driver initialization fails (here with message
"no chrome"), `fill_form` raises the wrapped exception to its caller
instead of returning a dict — the `raise` at form_filler.py line 49 sits
before the `try` whose handler builds the error dict. -/
theorem C1_launch_failure_raises :
    fill_form ⟨some "no chrome", none, fun _ => none, none⟩ [] [] =
      Except.error ("Failed to initialize ChromeDriver: no chrome. Please ensure " ++
        "Chrome browser is installed and ChromeDriver is available.") := rfl

/-- C1 (amended): once a driver has been obtained, `fill_form` always
returns a RunResult dict, with `errors` empty or a single message; in
particular a navigation failure is recorded as the one error string while
the (empty) partial `filled_fields` is still returned.  A driver launch
failure, by contrast, raises to the caller. -/
theorem C1_returns_result_once_launched (env : Env) (passport g28 : Doc)
    (hlaunch : env.launch = none) :
    (∃ r : RunResult, fill_form env passport g28 = Except.ok r ∧
      (r.errors = [] ∨ ∃ m, r.errors = [m])) ∧
    (∀ m, env.nav = some m →
      fill_form env passport g28 = Except.ok ⟨[], [m], none, 0⟩) := by
  constructor
  · unfold fill_form
    rw [hlaunch]
    cases hb : runBody env passport g28 with
    | error e => exact ⟨_, rfl, Or.inr ⟨e.1, rfl⟩⟩
    | ok f => exact ⟨_, rfl, Or.inl rfl⟩
  · intro m hm
    simp only [fill_form, runBody, hlaunch, hm, List.length_nil]

theorem C1_returns_result_once_launched_witness :
    fill_form ⟨none, some "nav boom", fun _ => none, none⟩ [] [] =
      Except.ok ⟨[], ["nav boom"], none, 0⟩ :=
  (C1_returns_result_once_launched ⟨none, some "nav boom", fun _ => none, none⟩ [] [] rfl).2
    "nav boom" rfl

/-- C6: a field whose source value is `None`, empty, or the literal "N/A"
is rejected by the guard at form_filler.py line 114: `fill_field_by_id`
returns `False` at once, `filled_fields` is unchanged (the name is never
appended) and no select action happens.  The closure cannot touch the
run-level `errors` list at all (the source never appends to it there), so
no error is recorded either. -/
theorem C6_guard_skips_silently (page : String → Option Element) (fid name : String)
    (filled : List String) (value : Option String)
    (h : value = none ∨ value = some "" ∨ value = some "N/A") :
    fill_field_by_id page fid value name filled = ⟨false, filled, none⟩ := by
  rcases h with rfl | rfl | rfl
  · rfl
  · simp [fill_field_by_id]
  · simp [fill_field_by_id]

theorem C6_guard_skips_silently_witness :
    fill_field_by_id (fun _ => some ⟨true, "input", "text", []⟩) "city" (some "N/A")
      "attorney_city" ["x"] = ⟨false, ["x"], none⟩ :=
  C6_guard_skips_silently (fun _ => some ⟨true, "input", "text", []⟩) "city"
    "attorney_city" ["x"] (some "N/A") (Or.inr (Or.inr rfl))

/-- C8: whenever the measured content height is at most the settled
viewport height — in particular when they are equal — the branch at
form_filler.py line 368 takes the single-screenshot path: exactly one
capture, and the scroll-and-stitch loop is never entered. -/
theorem C8_single_screenshot_path (total vh : Nat) (h : total ≤ vh) :
    screenshotPlan total vh = CaptureOutcome.single ∧
    numCaptures (screenshotPlan total vh) = 1 := by
  simp [screenshotPlan, h, numCaptures]

theorem C8_single_screenshot_path_witness :
    screenshotPlan 900 900 = CaptureOutcome.single ∧
    numCaptures (screenshotPlan 900 900) = 1 :=
  C8_single_screenshot_path 900 900 (Nat.le_refl 900)

/-- C9: every dict `fill_form` returns — success path and run-level error
path alike — satisfies `total_filled = len(filled_fields)` (both
constructions at form_filler.py lines 216-221 and 226-231 use
`len(filled_fields)`), and on the error path (nonempty `errors`) the
screenshot field is `None`. -/
theorem C9_runresult_invariant (env : Env) (passport g28 : Doc) (r : RunResult)
    (h : fill_form env passport g28 = Except.ok r) :
    r.total_filled = r.filled_fields.length ∧ (r.errors ≠ [] → r.screenshot = none) := by
  unfold fill_form at h
  cases hl : env.launch with
  | some e2 => rw [hl] at h; simp at h
  | none =>
    rw [hl] at h
    cases hb : runBody env passport g28 with
    | error e => rw [hb] at h; cases h; exact ⟨rfl, fun _ => rfl⟩
    | ok f => rw [hb] at h; cases h; exact ⟨rfl, fun hne => absurd rfl hne⟩

theorem C9_runresult_invariant_witness :
    (⟨[], [], some "form_filled.png", 0⟩ : RunResult).total_filled =
      (⟨[], [], some "form_filled.png", 0⟩ : RunResult).filled_fields.length :=
  (C9_runresult_invariant ⟨none, none, fun _ => none, none⟩ [] [] _ rfl).1

/-- C7: `format_state` looks up its input uppercased then stripped; a hit
in the 51-entry static table yields the full name ("ca" gives
"California"), and every other non-empty, non-"N/A" string passes through
unchanged ("Timbuktu" gives "Timbuktu") — `dict.get(state_upper,
state_str)` returns the original, untransformed input on a miss. -/
theorem C7_state_expansion :
    stateAbbrevMap.length = 51 ∧
    format_state (some "ca") = some "California" ∧
    format_state (some "Timbuktu") = some "Timbuktu" ∧
    (∀ s full, s ≠ "" → s ≠ "N/A" →
      pyGet stateAbbrevMap (pyStrip (pyUpper s)) = some full →
      format_state (some s) = some full) ∧
    (∀ s, s ≠ "" → s ≠ "N/A" →
      pyGet stateAbbrevMap (pyStrip (pyUpper s)) = none →
      format_state (some s) = some s) := by
  refine ⟨rfl, by decide, by decide, ?_, ?_⟩
  · intro s full h1 h2 h3
    simp [format_state, h1, h2, h3]
  · intro s h1 h2 h3
    simp [format_state, h1, h2, h3]

theorem C7_state_expansion_witness :
    format_state (some "ny") = some "New York" :=
  C7_state_expansion.2.2.2.1 "ny" "New York" (by decide) (by decide) (by decide)

/-- C5 counterexample: with `attorney_last_name = "N/A"` and
`attorney_name = "John Smith"`, the claim says the last token "Smith" of
the combined name is filled; but "N/A" is truthy in Python, so the `or`
at form_filler.py line 157 does not fall back: the computed value is
"N/A", which the guard of `fill_field_by_id` then rejects, so nothing is
filled at all. -/
theorem C5_na_value_not_skipped :
    attorney_last [("attorney_last_name", "N/A"), ("attorney_name", "John Smith")] =
      Except.ok "N/A" ∧
    attorneyLastSpec [("attorney_last_name", "N/A"), ("attorney_name", "John Smith")] =
      some "Smith" ∧
    fill_field_by_id (fun _ => some ⟨true, "input", "text", []⟩) "family-name" (some "N/A")
      "attorney_family_name" [] = ⟨false, [], none⟩ := by
  refine ⟨rfl, rfl, by decide⟩

/-- C5 (amended): the fallback to splitting `attorney_name` happens only
when the structured key is absent or empty (Python falsy), not when it is
"N/A": a present non-empty structured value — including the literal
"N/A", which the downstream guard then skips — is used as-is, and
otherwise the last (resp. first) whitespace token of a present non-empty
`attorney_name` is used. -/
theorem C5_name_fallback_on_falsy_only (g : Doc) :
    (∀ s, pyGet g "attorney_last_name" = some s → s ≠ "" →
      attorney_last g = Except.ok s) ∧
    ((pyGet g "attorney_last_name" = none ∨ pyGet g "attorney_last_name" = some "") →
      ∀ w t, pyGet g "attorney_name" = some w → w ≠ "" →
        (pySplit w).getLast? = some t → attorney_last g = Except.ok t) ∧
    (∀ s, pyGet g "attorney_first_name" = some s → s ≠ "" →
      attorney_first g = Except.ok s) ∧
    ((pyGet g "attorney_first_name" = none ∨ pyGet g "attorney_first_name" = some "") →
      ∀ w t, pyGet g "attorney_name" = some w → w ≠ "" →
        (pySplit w).head? = some t → attorney_first g = Except.ok t) := by
  refine ⟨?_, ?_, ?_, ?_⟩
  · intro s hs hne
    simp [attorney_last, hs, hne]
  · rintro (h | h) w t hw hne ht
    · simp [attorney_last, attorneyLastFallback, h, hw, hne, ht]
    · simp [attorney_last, attorneyLastFallback, h, hw, hne, ht]
  · intro s hs hne
    simp [attorney_first, hs, hne]
  · rintro (h | h) w t hw hne ht
    · simp [attorney_first, attorneyFirstFallback, h, hw, hne, ht]
    · simp [attorney_first, attorneyFirstFallback, h, hw, hne, ht]

theorem C5_name_fallback_on_falsy_only_witness :
    attorney_last [("attorney_name", "John von Smith")] = Except.ok "Smith" :=
  (C5_name_fallback_on_falsy_only [("attorney_name", "John von Smith")]).2.1
    (Or.inl (by decide)) "John von Smith" "Smith" (by decide) (by decide) (by decide)

/-- C10: `_parse_json_response` is total (the external `json.loads` is
modelled as an arbitrary total function returning `none` on a decode
error, so no branch raises): it strips optional fences, returns the
parsed object when `loads` accepts the stripped text, otherwise retries
on the slice from the first brace through the last one, and when that
also fails returns the error dict whose `raw_response` is the first 500
characters of the stripped input. -/
theorem C10_parse_json_response_total {α : Type} (loads : String → Option α) (text : String) :
    (∀ j, loads (fenceStrip text) = some j →
      parse_json_response loads text = ParseOut.parsed j) ∧
    (loads (fenceStrip text) = none →
      ∀ i k, pyFind (fenceStrip text) '{' = some i →
        pyRFind (fenceStrip text) '}' = some k → i ≤ k →
        ((∀ v, loads (pySlice (fenceStrip text) i (k + 1)) = some v →
            parse_json_response loads text = ParseOut.parsed v) ∧
          (loads (pySlice (fenceStrip text) i (k + 1)) = none →
            parse_json_response loads text = ParseOut.failed (pyTake (fenceStrip text) 500)))) ∧
    (loads (fenceStrip text) = none → pyFind (fenceStrip text) '{' = none →
      parse_json_response loads text = ParseOut.failed (pyTake (fenceStrip text) 500)) ∧
    (loads (fenceStrip text) = none →
      ∀ i k, pyFind (fenceStrip text) '{' = some i →
        pyRFind (fenceStrip text) '}' = some k → k < i →
        parse_json_response loads text = ParseOut.failed (pyTake (fenceStrip text) 500)) ∧
    (pyTake (fenceStrip text) 500).length ≤ 500 := by
  refine ⟨?_, ?_, ?_, ?_, ?_⟩
  · intro j hj
    simp [parse_json_response, hj]
  · intro hnone i k hi hk hik
    constructor
    · intro v hv
      simp [parse_json_response, hnone, hi, hk, Nat.not_lt.mpr hik, hv]
    · intro hv
      simp [parse_json_response, hnone, hi, hk, Nat.not_lt.mpr hik, hv]
  · intro hnone hfind
    simp [parse_json_response, hnone, hfind]
  · intro hnone i k hi hk hki
    simp [parse_json_response, hnone, hi, hk, Nat.not_le.mpr hki]
  · show ((fenceStrip text).toList.take 500).asString.length ≤ 500
    have h1 : ((fenceStrip text).toList.take 500).asString.length =
        ((fenceStrip text).toList.take 500).length := rfl
    rw [h1, List.length_take]
    omega

theorem C10_parse_json_response_total_witness :
    parse_json_response (fun _ => (none : Option Nat)) "hello" =
      ParseOut.failed (pyTake (fenceStrip "hello") 500) :=
  (C10_parse_json_response_total (fun _ => (none : Option Nat)) "hello").2.2.1 rfl (by decide)

/-- C2 counterexample: on a displayed select whose only option is
"Alabama"/"AL", the candidate "Zz" matches no option under any of the
three strategies (`selectAction` is `none`), yet `fill_field_by_id` falls
through the exception handlers to the unconditional append and `return
True` at form_filler.py lines 144-147: the field name IS appended to
`filled_fields` and success IS reported. -/
theorem C2_no_match_still_reports_success :
    selectAction "Zz" [⟨"Alabama", "AL"⟩] = none ∧
    fill_field_by_id
      (fun fid => if fid = "state" then some ⟨true, "select", "", [⟨"Alabama", "AL"⟩]⟩ else none)
      "state" (some "Zz") "attorney_state" [] = ⟨true, ["attorney_state"], none⟩ := by
  refine ⟨by decide, by decide⟩

/-- C2 (amended): select resolution does try exact visible-text match,
then exact value match, then case-insensitive substring match — each
strategy choosing the first matching option, in that priority order — but
when no option matches under any strategy the fill is NOT a no-op
failure: the select is left without a chosen option, yet the field's name
is still appended to `filled_fields` and the call still returns `True`. -/
theorem C2_select_priority_and_fallthrough
    (page : String → Option Element) (fid name : String) (filled : List String)
    (v : String) (el : Element)
    (hpage : page fid = some el) (hdisp : el.displayed = true)
    (htag : el.tag_name = "select") (hv1 : v ≠ "") (hv2 : v ≠ "N/A") :
    (fill_field_by_id page fid (some v) name filled =
      ⟨true, filled ++ [if name = "" then fid else name], selectAction v el.options⟩) ∧
    ((∃ o ∈ el.options, o.text = v) →
      ∃ i, selectAction v el.options = some i ∧ i < el.options.length ∧
        (el.options.getD i ⟨"", ""⟩).text = v ∧
        ∀ j, j < i → (el.options.getD j ⟨"", ""⟩).text ≠ v) ∧
    ((∀ o ∈ el.options, o.text ≠ v) → (∃ o ∈ el.options, o.value = v) →
      ∃ i, selectAction v el.options = some i ∧ i < el.options.length ∧
        (el.options.getD i ⟨"", ""⟩).value = v ∧
        ∀ j, j < i → (el.options.getD j ⟨"", ""⟩).value ≠ v) ∧
    ((∀ o ∈ el.options, o.text ≠ v ∧ o.value ≠ v) →
      (∃ o ∈ el.options, substrMatch v o = true) →
      ∃ i, selectAction v el.options = some i ∧ i < el.options.length ∧
        substrMatch v (el.options.getD i ⟨"", ""⟩) = true ∧
        ∀ j, j < i → substrMatch v (el.options.getD j ⟨"", ""⟩) = false) ∧
    ((∀ o ∈ el.options, o.text ≠ v ∧ o.value ≠ v ∧ substrMatch v o = false) →
      selectAction v el.options = none) := by
  refine ⟨?_, ?_, ?_, ?_, ?_⟩
  · simp [fill_field_by_id, hpage, hdisp, htag, hv1, hv2]
  · rintro ⟨o, ho, hov⟩
    obtain ⟨i, hi⟩ := firstIdx?_isSome_of_mem (fun o => o.text == v) el.options o ho
      (by simp [hov])
    obtain ⟨h1, h2, h3⟩ := firstIdx?_some_spec (fun o => o.text == v) ⟨"", ""⟩ el.options i hi
    refine ⟨i, ?_, h1, by simpa using h2, fun j hj => by simpa using h3 j hj⟩
    simp [selectAction, hi]
  · intro htext ⟨o, ho, hov⟩
    have htnone : firstIdx? (fun o => o.text == v) el.options = none :=
      firstIdx?_eq_none_of _ _ fun a ha => by simpa using htext a ha
    obtain ⟨i, hi⟩ := firstIdx?_isSome_of_mem (fun o => o.value == v) el.options o ho
      (by simp [hov])
    obtain ⟨h1, h2, h3⟩ := firstIdx?_some_spec (fun o => o.value == v) ⟨"", ""⟩ el.options i hi
    refine ⟨i, ?_, h1, by simpa using h2, fun j hj => by simpa using h3 j hj⟩
    simp [selectAction, htnone, hi]
  · intro hboth ⟨o, ho, hov⟩
    have htnone : firstIdx? (fun o => o.text == v) el.options = none :=
      firstIdx?_eq_none_of _ _ fun a ha => by simpa using (hboth a ha).1
    have hvnone : firstIdx? (fun o => o.value == v) el.options = none :=
      firstIdx?_eq_none_of _ _ fun a ha => by simpa using (hboth a ha).2
    obtain ⟨i, hi⟩ := firstIdx?_isSome_of_mem (substrMatch v) el.options o ho hov
    obtain ⟨h1, h2, h3⟩ := firstIdx?_some_spec (substrMatch v) ⟨"", ""⟩ el.options i hi
    refine ⟨i, ?_, h1, h2, h3⟩
    simp [selectAction, htnone, hvnone, hi]
  · intro hall
    have htnone : firstIdx? (fun o => o.text == v) el.options = none :=
      firstIdx?_eq_none_of _ _ fun a ha => by simpa using (hall a ha).1
    have hvnone : firstIdx? (fun o => o.value == v) el.options = none :=
      firstIdx?_eq_none_of _ _ fun a ha => by simpa using (hall a ha).2.1
    have hsnone : firstIdx? (substrMatch v) el.options = none :=
      firstIdx?_eq_none_of _ _ fun a ha => (hall a ha).2.2
    simp [selectAction, htnone, hvnone, hsnone]

theorem C2_select_priority_and_fallthrough_witness :
    fill_field_by_id
      (fun fid => if fid = "sex" then some ⟨true, "select", "",
        [⟨"Male", "M"⟩, ⟨"Female", "F"⟩]⟩ else none)
      "sex" (some "F") "passport_sex" [] =
      ⟨true, ["passport_sex"],
        selectAction "F" [⟨"Male", "M"⟩, ⟨"Female", "F"⟩]⟩ :=
  (C2_select_priority_and_fallthrough
    (fun fid => if fid = "sex" then some ⟨true, "select", "",
      [⟨"Male", "M"⟩, ⟨"Female", "F"⟩]⟩ else none)
    "sex" "passport_sex" [] "F" ⟨true, "select", "", [⟨"Male", "M"⟩, ⟨"Female", "F"⟩]⟩
    (by decide) rfl rfl (by decide) (by decide)).1

theorem char_eq_ofNat (c : Char) (n : Nat) (h : c.toNat = n) : c = Char.ofNat n := by
  rw [← h, Char.ofNat_toNat]

theorem digit_cases (c : Char) (h : c.isDigit = true) :
    c = '0' ∨ c = '1' ∨ c = '2' ∨ c = '3' ∨ c = '4' ∨ c = '5' ∨ c = '6' ∨
    c = '7' ∨ c = '8' ∨ c = '9' := by
  simp only [Char.isDigit, Bool.and_eq_true, decide_eq_true_eq] at h
  obtain ⟨h1, h2⟩ := h
  have hub : c.toNat ≤ 57 := UInt32.toNat_le_of_le (by norm_num) h2
  have hlb : 48 ≤ c.toNat := UInt32.le_toNat_of_le (by norm_num) h1
  have hd : c.toNat = 48 ∨ c.toNat = 49 ∨ c.toNat = 50 ∨ c.toNat = 51 ∨ c.toNat = 52 ∨
      c.toNat = 53 ∨ c.toNat = 54 ∨ c.toNat = 55 ∨ c.toNat = 56 ∨ c.toNat = 57 := by omega
  rcases hd with h' | h' | h' | h' | h' | h' | h' | h' | h' | h'
  · exact Or.inl ((char_eq_ofNat c 48 h').trans (by decide))
  · exact Or.inr (Or.inl ((char_eq_ofNat c 49 h').trans (by decide)))
  · exact Or.inr (Or.inr (Or.inl ((char_eq_ofNat c 50 h').trans (by decide))))
  · exact Or.inr (Or.inr (Or.inr (Or.inl ((char_eq_ofNat c 51 h').trans (by decide)))))
  · exact Or.inr (Or.inr (Or.inr (Or.inr (Or.inl ((char_eq_ofNat c 52 h').trans (by decide))))))
  · exact Or.inr (Or.inr (Or.inr (Or.inr (Or.inr (Or.inl ((char_eq_ofNat c 53 h').trans
      (by decide)))))))
  · exact Or.inr (Or.inr (Or.inr (Or.inr (Or.inr (Or.inr (Or.inl ((char_eq_ofNat c 54 h').trans
      (by decide))))))))
  · exact Or.inr (Or.inr (Or.inr (Or.inr (Or.inr (Or.inr (Or.inr (Or.inl
      ((char_eq_ofNat c 55 h').trans (by decide)))))))))
  · exact Or.inr (Or.inr (Or.inr (Or.inr (Or.inr (Or.inr (Or.inr (Or.inr (Or.inl
      ((char_eq_ofNat c 56 h').trans (by decide))))))))))
  · exact Or.inr (Or.inr (Or.inr (Or.inr (Or.inr (Or.inr (Or.inr (Or.inr (Or.inr
      ((char_eq_ofNat c 57 h').trans (by decide))))))))))

theorem daysInMonth_le_31 (y m : Nat) : daysInMonth y m ≤ 31 := by
  unfold daysInMonth
  split
  · split <;> omega
  · split <;> omega

theorem yearForm_eq_digitsVal (cs : List Char) (hlen : cs.length = 4)
    (hdig : cs.all Char.isDigit = true) : yearForm? cs = some (digitsVal cs) := by
  rcases cs with _ | ⟨a, cs⟩; · simp at hlen
  rcases cs with _ | ⟨b, cs⟩; · simp at hlen
  rcases cs with _ | ⟨c, cs⟩; · simp at hlen
  rcases cs with _ | ⟨d, cs⟩; · simp at hlen
  rcases cs with _ | ⟨e, cs⟩
  · simp only [List.all_cons, List.all_nil, Bool.and_eq_true, Bool.and_true] at hdig
    obtain ⟨ha, hb, hc, hd⟩ := hdig
    simp only [yearForm?, ha, hb, hc, hd, Bool.and_self, if_pos, digitsVal, List.foldl]
    congr 1
    omega
  · simp at hlen

theorem monthForm_eq_of_valid (ms : List Char) (hlen : ms.length = 2)
    (hdig : ms.all Char.isDigit = true) (hlo : 1 ≤ digitsVal ms)
    (hhi : digitsVal ms ≤ 12) : monthForm? ms = some (digitsVal ms) := by
  rcases ms with _ | ⟨c1, ms⟩; · simp at hlen
  rcases ms with _ | ⟨c2, ms⟩; · simp at hlen
  rcases ms with _ | ⟨c3, ms⟩
  · simp only [List.all_cons, List.all_nil, Bool.and_eq_true, Bool.and_true] at hdig
    obtain ⟨h1, h2⟩ := hdig
    rcases digit_cases c1 h1 with rfl | rfl | rfl | rfl | rfl | rfl | rfl | rfl | rfl | rfl <;>
      rcases digit_cases c2 h2 with rfl | rfl | rfl | rfl | rfl | rfl | rfl | rfl | rfl | rfl <;>
      revert hlo hhi <;> decide
  · simp at hlen

theorem dayForm_eq_of_valid (ds : List Char) (hlen : ds.length = 2)
    (hdig : ds.all Char.isDigit = true) (hlo : 1 ≤ digitsVal ds)
    (hhi : digitsVal ds ≤ 31) : dayForm? ds = some (digitsVal ds) := by
  rcases ds with _ | ⟨c1, ds⟩; · simp at hlen
  rcases ds with _ | ⟨c2, ds⟩; · simp at hlen
  rcases ds with _ | ⟨c3, ds⟩
  · simp only [List.all_cons, List.all_nil, Bool.and_eq_true, Bool.and_true] at hdig
    obtain ⟨h1, h2⟩ := hdig
    rcases digit_cases c1 h1 with rfl | rfl | rfl | rfl | rfl | rfl | rfl | rfl | rfl | rfl <;>
      rcases digit_cases c2 h2 with rfl | rfl | rfl | rfl | rfl | rfl | rfl | rfl | rfl | rfl <;>
      revert hlo hhi <;> decide
  · simp at hlen

/-- C4 counterexample: "1990-1-5" does not match `YYYY-MM-DD` (its month
and day are not two digits), so the claim requires it to pass through
unchanged; but `strptime`'s `%m`/`%d` fields also accept single digits,
so `format_date` reformats it to "01/05/1990" instead. -/
theorem C4_lenient_parse_not_passthrough :
    strictYMD? "1990-1-5" = none ∧
    format_date (some "1990-1-5") = some "01/05/1990" ∧
    ("1990-1-5" : String) ≠ "" ∧ ("1990-1-5" : String) ≠ "N/A" ∧
    (some "01/05/1990" : Option String) ≠ some "1990-1-5" := by
  refine ⟨by decide, by decide, by decide, by decide, by decide⟩

/-- C4 (amended): `format_date` yields nothing for `None`, the empty
string and "N/A"; it maps every string matching the strict `YYYY-MM-DD`
shape (four-digit year, two-digit month and day, real calendar date) to
that date rendered `MM/DD/YYYY`; and it returns unchanged exactly the
remaining strings that the lenient `%Y-%m-%d` parse rejects — strings the
parser accepts with one-digit month or day are also reformatted rather
than passed through.  No branch raises. -/
theorem C4_date_normalization :
    format_date none = none ∧
    (∀ s, s = "" ∨ s = "N/A" → format_date (some s) = none) ∧
    (∀ s y m d, strictYMD? s = some (y, m, d) →
      format_date (some s) = some (pad2 m ++ "/" ++ pad2 d ++ "/" ++ pad4 y)) ∧
    (∀ s, s ≠ "" → s ≠ "N/A" → parseYMD s = none → format_date (some s) = some s) := by
  refine ⟨rfl, ?_, ?_, ?_⟩
  · rintro s (rfl | rfl) <;> rfl
  · intro s y m d hs
    unfold strictYMD? at hs
    split at hs
    next ys ms ds heq =>
      split at hs
      next hcond =>
        split at hs
        next hvalid =>
          obtain ⟨rfl, rfl, rfl⟩ : digitsVal ys = y ∧ digitsVal ms = m ∧ digitsVal ds = d := by
            simpa using hs
          simp only [Bool.and_eq_true, decide_eq_true_eq, and_assoc] at hcond hvalid
          obtain ⟨hylen, hydig, hmlen, hmdig, hdlen, hddig⟩ := hcond
          obtain ⟨hv1, hv2, hv3, hv4, hv5⟩ := hvalid
          have hne1 : s ≠ "" := by
            intro h
            rw [h] at heq
            have h0 : splitDash "".toList = [[]] := by decide
            rw [h0] at heq
            simp at heq
          have hne2 : s ≠ "N/A" := by
            intro h
            rw [h] at heq
            have h0 : splitDash "N/A".toList = [['N', '/', 'A']] := by decide
            rw [h0] at heq
            simp at heq
          have hy : yearForm? ys = some (digitsVal ys) := yearForm_eq_digitsVal ys hylen hydig
          have hm : monthForm? ms = some (digitsVal ms) :=
            monthForm_eq_of_valid ms hmlen hmdig hv2 hv3
          have hd31 : digitsVal ds ≤ 31 := le_trans hv5 (daysInMonth_le_31 _ _)
          have hday : dayForm? ds = some (digitsVal ds) :=
            dayForm_eq_of_valid ds hdlen hddig hv4 hd31
          have hparse : parseYMD s = some (digitsVal ys, digitsVal ms, digitsVal ds) := by
            unfold parseYMD
            rw [heq]
            simp [hy, hm, hday, hv1, hv5]
          simp [format_date, hne1, hne2, hparse]
        next => simp at hs
      next => simp at hs
    next => simp at hs
  · intro s h1 h2 h3
    simp [format_date, h1, h2, h3]

theorem C4_date_normalization_witness :
    format_date (some "1990-01-15") = some (pad2 1 ++ "/" ++ pad2 15 ++ "/" ++ pad4 1990) :=
  C4_date_normalization.2.2.1 "1990-01-15" 1990 1 15 (by decide)

theorem chainFrom_le : ∀ (regs : List (Nat × Nat)) (a b : Nat), chainFrom a regs b → a ≤ b := by
  intro regs
  induction regs with
  | nil =>
    intro a b h
    exact le_of_eq h
  | cons reg rest ih =>
    intro a b h
    obtain ⟨s, len⟩ := reg
    have h' : s = a ∧ 0 < len ∧ chainFrom (a + len) rest b := h
    obtain ⟨rfl, hpos, hrest⟩ := h'
    have := ih (s + len) b hrest
    omega

theorem chainFrom_count : ∀ (regs : List (Nat × Nat)) (a b r : Nat), chainFrom a regs b →
    countCovered regs r = if a ≤ r ∧ r < b then 1 else 0 := by
  intro regs
  induction regs with
  | nil =>
    intro a b r h
    have h' : a = b := h
    subst h'
    simp only [countCovered, List.filter_nil, List.length_nil]
    rw [if_neg (by omega)]
  | cons reg rest ih =>
    intro a b r h
    obtain ⟨s, len⟩ := reg
    have h' : s = a ∧ 0 < len ∧ chainFrom (a + len) rest b := h
    obtain ⟨rfl, hpos, hrest⟩ := h'
    have hle : s + len ≤ b := chainFrom_le rest (s + len) b hrest
    have ih' := ih (s + len) b r hrest
    simp only [countCovered, List.filter_cons] at ih' ⊢
    by_cases hc : s ≤ r ∧ r < s + len
    · rw [if_pos (by simp only [Bool.and_eq_true, decide_eq_true_eq]; exact ⟨hc.1, hc.2⟩)]
      rw [if_neg (by omega)] at ih'
      rw [List.length_cons, ih', if_pos (by omega)]
    · rw [if_neg (by simp only [Bool.and_eq_true, decide_eq_true_eq]; tauto)]
      rw [ih']
      by_cases hc3 : s + len ≤ r ∧ r < b
      · rw [if_pos hc3, if_pos (by omega)]
      · rw [if_neg hc3, if_neg (by omega)]

theorem tiles_chain (vh total : Nat) (h20 : 20 < vh) :
    ∀ (fuel pos lastEnd : Nat), pos ≤ lastEnd → lastEnd ≤ pos + 20 → lastEnd < total →
      total ≤ pos + vh + fuel * (vh - 20) →
      chainFrom lastEnd (compositeAux total vh lastEnd (tileOffsetsAux vh total fuel pos)) total := by
  intro fuel
  induction fuel with
  | zero =>
    intro pos lastEnd h1 h2 h3 h4
    have hmax : max pos lastEnd = lastEnd := Nat.max_eq_right h1
    simp only [tileOffsetsAux, compositeAux, hmax]
    refine ⟨rfl, by omega, ?_⟩
    show lastEnd + min (vh - (lastEnd - pos)) (total - lastEnd) = total
    omega
  | succ fuel ih =>
    intro pos lastEnd h1 h2 h3 h4
    have hmax : max pos lastEnd = lastEnd := Nat.max_eq_right h1
    by_cases hstop : total ≤ pos + vh
    · simp only [tileOffsetsAux, if_pos hstop, compositeAux, hmax]
      refine ⟨rfl, by omega, ?_⟩
      show lastEnd + min (vh - (lastEnd - pos)) (total - lastEnd) = total
      omega
    · simp only [tileOffsetsAux, if_neg hstop, compositeAux, hmax]
      have hh : min (vh - (lastEnd - pos)) (total - lastEnd) = pos + vh - lastEnd := by omega
      rw [hh]
      refine ⟨rfl, by omega, ?_⟩
      have heq : lastEnd + (pos + vh - lastEnd) = pos + vh := by omega
      rw [heq]
      have hmul : (fuel + 1) * (vh - 20) = fuel * (vh - 20) + (vh - 20) := Nat.succ_mul _ _
      exact ih (pos + vh - 20) (pos + vh) (by omega) (by omega) (by omega) (by omega)

/-- C3: for every content height strictly above the viewport height and
every viewport height above the 20-pixel overlap, the compositing step —
pasting each tile of the capture loop at `max(tileOffset,
previousPasteBottom)`, cropping its top by the amount skipped and its
bottom at the content height — covers every canvas row below
`contentHeight` exactly once and no row at or above it: no gap between
consecutive pastes and no row written by two tiles. -/
theorem C3_tiling_exact_coverage (total vh r : Nat) (h20 : 20 < vh) (hlt : vh < total) :
    countCovered (composite total vh) r = if r < total then 1 else 0 := by
  have hchain : chainFrom 0 (composite total vh) total := by
    unfold composite tileOffsets
    have h1 : total * 1 ≤ total * (vh - 20) := Nat.mul_le_mul_left total (by omega)
    exact tiles_chain vh total h20 total 0 0 (Nat.le_refl 0) (by omega) (by omega) (by omega)
  have hcount := chainFrom_count (composite total vh) 0 total r hchain
  rw [hcount]
  by_cases hr : r < total
  · rw [if_pos ⟨Nat.zero_le r, hr⟩, if_pos hr]
  · rw [if_neg (by omega), if_neg hr]

theorem C3_tiling_exact_coverage_witness :
    countCovered (composite 100 50) 30 = 1 ∧ countCovered (composite 100 50) 100 = 0 := by
  constructor
  · have h := C3_tiling_exact_coverage 100 50 30 (by norm_num) (by norm_num)
    simpa using h
  · have h := C3_tiling_exact_coverage 100 50 100 (by norm_num) (by norm_num)
    simpa using h
